import Mathlib

/-!
Verification of `src/test1.py` (Green Coder extension test fixture).

The script defines two functions over the fixed list `["a","b","c","d","e"]`:
`inefficient_function` (global assignment, `range(len(...))` loop with
indexing, list concatenation in a loop, string concatenation in a loop) and
`efficient_function` (`enumerate` loop, list comprehension, `"".join`).
We embed the script shallowly: module-level state is the optional global
variable `global_var` together with the lines printed to standard output;
the fallible list indexing `items[i]` is modelled with `List.get?`, so
`inefficient_function` returns an `Option`.
-/

/-- Module-level state of the Python script: the global variable
`global_var` (absent until first assigned) and the lines printed to
standard output so far. -/
structure PyState where
  global_var : Option String
  output : List String
deriving Repr, DecidableEq

/-- The fixed list `["a", "b", "c", "d", "e"]` hard-coded in both
functions. -/
def items : List String := ["a", "b", "c", "d", "e"]

/-- Python's `str.upper()`: uppercase every character of the string (the
fixture only contains ASCII letters, where `Char.toUpper` agrees with
Python's Unicode uppercasing). -/
def pyUpper (s : String) : String := ⟨s.data.map Char.toUpper⟩

/-- One printed line `f"Item {i}: {x}"`. -/
def itemLine (i : Nat) (x : String) : String :=
  "Item " ++ toString i ++ ": " ++ x

/-- Embedding of `inefficient_function` (src/test1.py lines 5-25).
It assigns `global_var = "test"`, prints each item via a
`for i in range(len(items))` loop using the fallible indexing `items[i]`
(modelled with `List.get?`; an out-of-bounds index would yield `none`),
builds `result` by list concatenation in a loop and `text` by string
concatenation in a loop, and returns the pair `(result, text)` together
with the updated module state. -/
def inefficient_function (st : PyState) : Option (PyState × (List String × String)) :=
  let st := { st with global_var := some "test" }
  match (List.range items.length).foldlM
      (fun (out : List String) (i : Nat) =>
        (items.get? i).map (fun x => out ++ [itemLine i x]))
      st.output with
  | none => none
  | some out =>
    let result := items.foldl (fun r item => r ++ [pyUpper item]) []
    let text := items.foldl (fun t item => t ++ item) ""
    some ({ st with output := out }, (result, text))

/-- Embedding of `efficient_function` (src/test1.py lines 27-41).
It prints each item via `for i, item in enumerate(items)`, builds
`result` with a list comprehension (`List.map`) and `text` with
`"".join(items)` (`String.join`), and returns `(result, text)` together
with the updated module state. It never assigns any global. -/
def efficient_function (st : PyState) : PyState × (List String × String) :=
  let out := items.enum.foldl (fun o p => o ++ [itemLine p.1 p.2]) st.output
  let result := items.map pyUpper
  let text := String.join items
  ({ st with output := out }, (result, text))

/-- Embedding of the `if __name__ == "__main__":` block (lines 43-46), as a
function of the command-line arguments and environment the process was
invoked with. The script never reads `sys.argv` or `os.environ` (the
`os`/`sys` imports are unused), so neither parameter is consumed: it
prints the banner, calls `inefficient_function` once, then
`efficient_function` once, and ends. -/
def run_script (_args : List String) (_env : List (String × String)) : Option PyState :=
  let st0 : PyState := { global_var := none, output := ["Testing Green Coder extension..."] }
  match inefficient_function st0 with
  | none => none
  | some (st1, _) => some (efficient_function st1).1

/-- The standalone invocation with no arguments and an empty environment. -/
def main_script : Option PyState := run_script [] []

/-- The five lines both functions print, in order. -/
def itemLines : List String :=
  ["Item 0: a", "Item 1: b", "Item 2: c", "Item 3: d", "Item 4: e"]

/-- Claim C1: for the fixed hard-coded input list, `inefficient_function`
and `efficient_function` return equal result pairs, from any module
state. -/
theorem c1_results_equal (st : PyState) :
    (inefficient_function st).map (fun p => p.2) =
      some (efficient_function st).2 := by
  rfl

/-- Claim C2: every call to `inefficient_function` returns the pair
`(["A","B","C","D","E"], "abcde")`. -/
theorem c2_inefficient_result (st : PyState) :
    (inefficient_function st).map (fun p => p.2) =
      some (["A", "B", "C", "D", "E"], "abcde") := by
  rfl

/-- Claim C3: every call to `efficient_function` returns the pair
`(["A","B","C","D","E"], "abcde")`. -/
theorem c3_efficient_result (st : PyState) :
    (efficient_function st).2 = (["A", "B", "C", "D", "E"], "abcde") := by
  rfl

/-- Claim C4: neither function can fail: `inefficient_function` returns
normally (its `Option` is `some`, i.e. the error branch of the indexing
is unreachable) because every index produced by `range(len(items))` is in
bounds; `efficient_function` is total by construction. -/
theorem c4_no_failure (st : PyState) :
    (inefficient_function st).isSome = true ∧
      ∀ i ∈ List.range items.length, (items.get? i).isSome = true := by
  refine ⟨rfl, ?_⟩
  decide

/-- Claim C5: `inefficient_function`'s only effect on module-level
globals is setting `global_var` to `"test"`, while `efficient_function`
leaves `global_var` unchanged. -/
theorem c5_global_frame (st : PyState) :
    (inefficient_function st).map (fun p => p.1.global_var) =
        some (some "test") ∧
      (efficient_function st).1.global_var = st.global_var := by
  exact ⟨rfl, rfl⟩

/-- Claim C6: run as a standalone script, the program prints the banner,
runs `inefficient_function` once then `efficient_function` once — so
standard output is the banner followed by the five item lines twice —
sets `global_var` to `"test"`, and ends with no further effect. -/
theorem c6_main_trace :
    main_script =
      some { global_var := some "test",
             output := "Testing Green Coder extension..." ::
               (itemLines ++ itemLines) } := by
  rfl

/-- Claim C7: noninterference over command-line arguments and environment
variables: any two invocations of the script that differ only in those
inputs produce identical final states (same output, same globals). -/
theorem c7_noninterference (args₁ args₂ : List String)
    (env₁ env₂ : List (String × String)) :
    run_script args₁ env₁ = run_script args₂ env₂ := by
  rfl

/-- Claim C8: both functions print exactly the five lines
`"Item 0: a" … "Item 4: e"`, in order, and nothing else, appended to
whatever was already on standard output. -/
theorem c8_same_output (st : PyState) :
    (inefficient_function st).map (fun p => p.1.output) =
        some (st.output ++ itemLines) ∧
      (efficient_function st).1.output = st.output ++ itemLines := by
  refine ⟨?_, ?_⟩
  · have h : (inefficient_function st).map (fun p => p.1.output) =
        some (st.output ++ ["Item 0: a"] ++ ["Item 1: b"] ++ ["Item 2: c"]
          ++ ["Item 3: d"] ++ ["Item 4: e"]) := rfl
    rw [h]; simp [itemLines]
  · have h : (efficient_function st).1.output =
        st.output ++ ["Item 0: a"] ++ ["Item 1: b"] ++ ["Item 2: c"]
          ++ ["Item 3: d"] ++ ["Item 4: e"] := rfl
    rw [h]; simp [itemLines]

/-- Claim C9: both functions are deterministic: calls from any two module
states (any prior `global_var`, any prior output) return equal result
pairs. -/
theorem c9_deterministic (st₁ st₂ : PyState) :
    (inefficient_function st₁).map (fun p => p.2) =
        (inefficient_function st₂).map (fun p => p.2) ∧
      (efficient_function st₁).2 = (efficient_function st₂).2 := by
  exact ⟨rfl, rfl⟩

/-- Claim C10: both functions terminate on every call: each loop runs over
the fixed five-element list, and each function returns a value. -/
theorem c10_terminates (st : PyState) :
    items.length = 5 ∧
      (∃ st' r, inefficient_function st = some (st', r)) ∧
      ∃ st'' r', efficient_function st = (st'', r') := by
  refine ⟨rfl, ⟨_, _, rfl⟩, ⟨_, _, rfl⟩⟩
